import Mathlib

/-!
Shallow embedding of src/frontend/src/pages/auth/DoctorRegister.tsx.

The file is a React registration form for the doctor account type.  Its
observable logic is: a fetched list of services, a select-change handler
writing the specialization form field and a derived duration/price display,
field-level validation rules (react-hook-form), and an async submit handler
that re-validates the specialization, POSTs a JSON body, and on success
persists a token and a user summary to localStorage before navigating.

Modelling choices:
  - JS strings are Lean String; JS numbers occurring here (duration, price)
    are Nat (the code only copies and compares them).
  - localStorage is a record with the two keys the code writes.
  - the fetch call and its JSON parse are an explicit FetchOutcome argument:
    either a thrown exception carrying the error message, or a response with
    an ok flag and a parsed body.  The body is modelled by the shapes the
    code reads: an optional message field and an optional data field with
    token and user.
  - JS truthiness of the || operator on strings (empty string is falsy) is
    modelled by jsOrStr / jsOrOpt.
  - the component state carries exactly the pieces of useState / form state
    the handlers write: isLoading, error, the specialization form field, the
    selectedServiceDetails display, localStorage, and the navigation target.
-/

/-- Service record as fetched from the service catalog (DoctorRegister.tsx
lines 8-14). -/
structure Service where
  _id : String
  name : String
  description : String
  duration : Nat
  price : Nat
  deriving DecidableEq, Repr

/-- The form inputs registered with react-hook-form. -/
structure RegisterFormInputs where
  name : String
  email : String
  password : String
  confirmPassword : String
  specialization : String
  phoneNumber : String
  address : String
  deriving DecidableEq, Repr

/-- The derived duration/price display state (lines 28-31). -/
structure SelectedServiceDetails where
  duration : Nat
  price : Nat
  deriving DecidableEq, Repr

/-- The user summary object the code persists under the localStorage key
'user' (lines 93-99). -/
structure StoredUser where
  id : String
  name : String
  email : String
  role : String
  specialization : String
  deriving DecidableEq, Repr

/-- Client-side storage restricted to the two keys the code writes:
'token' and 'user'. -/
structure Storage where
  token : Option String
  user : Option StoredUser
  deriving DecidableEq, Repr

/-- The user object inside a successful response body.  The code reads id,
name, email and specialization; a role field may or may not be present in
the response and is never read. -/
structure RespUser where
  id : String
  name : String
  email : String
  specialization : String
  role : Option String
  deriving DecidableEq, Repr

/-- The data object of a successful response body: result.data.token and
result.data.user. -/
structure RespData where
  token : String
  user : RespUser
  deriving DecidableEq, Repr

/-- A parsed response body, covering the fields the code reads:
result.message (failure shape) and result.data (success shape). -/
structure RespBody where
  message : Option String
  data : Option RespData
  deriving DecidableEq, Repr

/-- Outcome of the awaited fetch plus response.json(): either a rejection
(network error or JSON parse error) carrying the thrown error's message,
or a settled response with its ok flag and parsed body. -/
inductive FetchOutcome where
  | exn (msg : String)
  | response (ok : Bool) (body : RespBody)
  deriving DecidableEq, Repr

/-- The JSON request body built at lines 74-82. -/
structure RequestBody where
  name : String
  email : String
  password : String
  specialization : String
  phoneNumber : String
  address : String
  role : String
  deriving DecidableEq, Repr

/-- The component state the handlers read and write: useState pieces
(isLoading, error, selectedServiceDetails), the specialization form field
written by setValue, localStorage, and the navigate target. -/
structure ComponentState where
  isLoading : Bool
  error : Option String
  specialization : String
  selectedServiceDetails : Option SelectedServiceDetails
  storage : Storage
  navigatedTo : Option String
  deriving DecidableEq, Repr

/-- JS s1 || s2 on strings: the empty string is falsy. -/
def jsOrStr (s fallback : String) : String :=
  if s = "" then fallback else s

/-- JS x || s on an optional string: undefined/null and the empty string
are falsy. -/
def jsOrOpt (s : Option String) (fallback : String) : String :=
  match s with
  | some v => jsOrStr v fallback
  | none => fallback

/-- Error message of line 68. -/
def specializationErrorMsg : String := "Please select a valid specialization"

/-- Fallback of line 88. -/
def genericFailMsg : String := "Registration failed"

/-- Fallback of line 104 in the catch block. -/
def catchFallbackMsg : String := "Registration failed. Please try again."

/-- Message of the TypeError raised at line 92 when a response with ok true
has no data object, so that result.data.token dereferences undefined. -/
def typeErrorTokenMsg : String :=
  "Cannot read properties of undefined (reading 'token')"

/-- Navigation target of line 102. -/
def dashboardRoute : String := "/doctor/dashboard"

/-- The JSON request body of lines 74-82: the six form fields plus the
fixed role marker. -/
def buildRequestBody (data : RegisterFormInputs) : RequestBody :=
  { name := data.name
    email := data.email
    password := data.password
    specialization := data.specialization
    phoneNumber := data.phoneNumber
    address := data.address
    role := "doctor" }

/-- The select onChange handler (lines 49-58): find the first service whose
name equals the selected value; if found, set the specialization form field
to its name and the displayed details to its duration and price; if not
found, change nothing. -/
def handleServiceChange (services : List Service) (value : String)
    (s : ComponentState) : ComponentState :=
  match services.find? (fun svc => svc.name == value) with
  | some svc =>
      { s with specialization := svc.name
               selectedServiceDetails :=
                 some { duration := svc.duration, price := svc.price } }
  | none => s

/-- The first two statements of onSubmit (lines 62-63): setIsLoading(true)
and setError(null). -/
def startSubmit (s : ComponentState) : ComponentState :=
  { s with isLoading := true, error := none }

/-- The submit button is disabled exactly while isLoading (line 306). -/
def submitDisabled (s : ComponentState) : Bool := s.isLoading

/-- The async submit handler onSubmit (lines 60-108).  Returns the new
component state and the request body sent to the registration endpoint, or
none when the local specialization validation throws before fetch is
called.  The fetch outcome is an argument (the environment's behaviour).
Every path runs the finally block, so isLoading ends false. -/
def onSubmit (services : List Service) (data : RegisterFormInputs)
    (fetched : FetchOutcome) (s0 : ComponentState) :
    ComponentState × Option RequestBody :=
  let s := startSubmit s0
  match services.find? (fun svc => svc.name == data.specialization) with
  | none =>
      -- throw new Error('Please select a valid specialization'), caught at
      -- line 104; the message is nonempty so err.message || fallback is it
      ({ s with error := some specializationErrorMsg, isLoading := false },
       none)
  | some _ =>
      let body := buildRequestBody data
      match fetched with
      | .exn msg =>
          -- the awaited fetch or response.json() rejected; the catch block
          -- shows err.message || 'Registration failed. Please try again.'
          ({ s with error := some (jsOrStr msg catchFallbackMsg),
                    isLoading := false }, some body)
      | .response ok respBody =>
          if ok then
            match respBody.data with
            | none =>
                -- result.data is undefined: line 92 throws a TypeError,
                -- caught at line 104
                ({ s with error := some typeErrorTokenMsg,
                          isLoading := false }, some body)
            | some d =>
                -- lines 92-102: store token and user summary, navigate
                ({ s with
                    storage :=
                      { token := some d.token
                        user := some { id := d.user.id
                                       name := d.user.name
                                       email := d.user.email
                                       role := "doctor"
                                       specialization := d.user.specialization } }
                    navigatedTo := some dashboardRoute
                    isLoading := false }, some body)
          else
            -- line 88: throw new Error(result.message || 'Registration
            -- failed'); that message is never empty, so the catch block
            -- displays it unchanged
            ({ s with error := some (jsOrOpt respBody.message genericFailMsg),
                      isLoading := false }, some body)

/-- Character class of the local part of the email pattern at line 163,
with the i flag: letters, digits, and . _ % + - characters. -/
def isLocalChar (c : Char) : Bool :=
  c.isAlpha || c.isDigit || c == '.' || c == '_' || c == '%' || c == '+' || c == '-'

/-- Character class of the domain part: letters, digits, . and - characters. -/
def isDomainChar (c : Char) : Bool :=
  c.isAlpha || c.isDigit || c == '.' || c == '-'

/-- Whether a list of characters matches the anchored tail of two or more
letters. -/
def tldOk (l : List Char) : Bool :=
  decide (2 ≤ l.length) && l.all Char.isAlpha

/-- Whether a list of characters matches the part of the email pattern after
the at sign: one or more domain characters, a literal dot, then two or more
letters to the end. -/
def emailDomainMatch (r : List Char) : Bool :=
  (List.range r.length).any (fun k =>
    decide (0 < k) && (r.take k).all isDomainChar &&
    (r.drop k).head? == some '.' && tldOk (r.drop (k + 1)))

/-- Whether a string matches the email pattern of line 163: one or more
local characters, an at sign, then the domain part; anchored at both ends,
case-insensitive. -/
def emailMatch (s : String) : Bool :=
  let l := s.data
  (List.range l.length).any (fun k =>
    decide (0 < k) && (l.take k).all isLocalChar &&
    (l.drop k).head? == some '@' && emailDomainMatch (l.drop (k + 1)))

/-- The field-level validation rules registered with react-hook-form
(lines 143, 160-166, 183, 230, 247, 264-270, 287-291): every field
required (the empty string is falsy), the email must match the pattern,
the password must have at least 6 characters, and confirmPassword must
equal the watched password. -/
def validateInputs (i : RegisterFormInputs) : Bool :=
  i.name != "" &&
  (i.email != "" && emailMatch i.email) &&
  i.specialization != "" &&
  i.phoneNumber != "" &&
  i.address != "" &&
  (i.password != "" && decide (6 ≤ i.password.length)) &&
  (i.confirmPassword != "" && i.confirmPassword == i.password)

/-- The form submit flow handleSubmit(onSubmit) (line 130): react-hook-form
runs the field-level validation first and invokes onSubmit only when every
rule passes; none means onSubmit was never invoked. -/
def handleSubmitModel (services : List Service) (i : RegisterFormInputs)
    (fetched : FetchOutcome) (s : ComponentState) :
    Option (ComponentState × Option RequestBody) :=
  if validateInputs i then some (onSubmit services i fetched s) else none

/-- The invariant of the selectedServiceDetails state: either still its
initial null, or the duration and price of some service in the fetched
list. -/
def detailsInvariant (services : List Service)
    (d : Option SelectedServiceDetails) : Prop :=
  d = none ∨ ∃ svc ∈ services,
    d = some { duration := svc.duration, price := svc.price }

/-- Sample service list used to evaluate the theorems on concrete inputs. -/
def demoServices : List Service :=
  [{ _id := "1", name := "Cardiology", description := "Heart care",
     duration := 30, price := 100 }]

/-- Sample form inputs passing every field-level rule, selecting the
Cardiology service. -/
def demoInputs : RegisterFormInputs :=
  { name := "Dr. John Doe"
    email := "doctor@example.com"
    password := "secret1"
    confirmPassword := "secret1"
    specialization := "Cardiology"
    phoneNumber := "+1 (555) 000-0000"
    address := "Clinic address" }

/-- Initial component state: not loading, no error, empty specialization,
null details, empty storage, not navigated. -/
def initialState : ComponentState :=
  { isLoading := false
    error := none
    specialization := ""
    selectedServiceDetails := none
    storage := { token := none, user := none }
    navigatedTo := none }

/-- Helper: every run of onSubmit ends with isLoading false, and either
succeeds (no error, navigated to the dashboard) or fails (error message
set, navigation unchanged). -/
theorem onSubmit_paths (services : List Service) (data : RegisterFormInputs)
    (fetched : FetchOutcome) (s : ComponentState) :
    ((onSubmit services data fetched s).1).isLoading = false ∧
    ((((onSubmit services data fetched s).1).error = none ∧
      ((onSubmit services data fetched s).1).navigatedTo = some dashboardRoute) ∨
     (∃ m, ((onSubmit services data fetched s).1).error = some m ∧
       ((onSubmit services data fetched s).1).navigatedTo = s.navigatedTo)) := by
  unfold onSubmit
  cases hfind : services.find? (fun svc => svc.name == data.specialization) with
  | none => exact ⟨rfl, Or.inr ⟨_, rfl, rfl⟩⟩
  | some svc =>
    rcases fetched with msg | ⟨ok, body⟩
    · exact ⟨rfl, Or.inr ⟨_, rfl, rfl⟩⟩
    · rcases body with ⟨message, bdata⟩
      cases ok with
      | false => exact ⟨rfl, Or.inr ⟨_, rfl, rfl⟩⟩
      | true =>
        cases bdata with
        | none => exact ⟨rfl, Or.inr ⟨_, rfl, rfl⟩⟩
        | some d => exact ⟨rfl, Or.inl ⟨rfl, rfl⟩⟩

/-- C1: when the submitted specialization equals no service name in the
fetched list, onSubmit ends with the local error message "Please select a
valid specialization" and no registration request is sent. -/
theorem onSubmit_invalid_specialization_no_request
    (services : List Service) (data : RegisterFormInputs)
    (fetched : FetchOutcome) (s : ComponentState)
    (h : ∀ svc ∈ services, svc.name ≠ data.specialization) :
    onSubmit services data fetched s =
      ({ s with isLoading := false, error := some specializationErrorMsg },
       none) := by
  have hfind :
      services.find? (fun svc => svc.name == data.specialization) = none := by
    rw [List.find?_eq_none]
    intro x hx
    simp [h x hx]
  unfold onSubmit
  rw [hfind]
  rfl

/-- C1 witness: with a one-service catalog containing only Cardiology,
submitting the specialization Dermatology fails locally with the validation
message and no request body. -/
theorem onSubmit_invalid_specialization_no_request_witness :
    onSubmit demoServices { demoInputs with specialization := "Dermatology" }
        (.exn "") initialState =
      ({ initialState with isLoading := false,
                           error := some specializationErrorMsg }, none) :=
  onSubmit_invalid_specialization_no_request _ _ _ _ (by decide)

/-- C2: a successful response carrying token t leaves exactly t in the
storage entry under the key 'token' after onSubmit completes. -/
theorem onSubmit_success_stores_token
    (services : List Service) (data : RegisterFormInputs) (s : ComponentState)
    (svc : Service) (message : Option String) (d : RespData)
    (hfind : services.find? (fun x => x.name == data.specialization)
        = some svc) :
    ((onSubmit services data
        (.response true { message := message, data := some d }) s).1).storage.token
      = some d.token := by
  unfold onSubmit
  rw [hfind]
  rfl

/-- C2 witness: a concrete successful response with token tok123 ends with
storage token tok123. -/
theorem onSubmit_success_stores_token_witness :
    ((onSubmit demoServices demoInputs
        (.response true { message := none
                          data := some { token := "tok123"
                                         user := { id := "u1"
                                                   name := "Dr. John Doe"
                                                   email := "doctor@example.com"
                                                   specialization := "Cardiology"
                                                   role := some "admin" } } })
        initialState).1).storage.token = some "tok123" :=
  onSubmit_success_stores_token _ _ _ _ _ _ rfl

/-- C3: whenever the local specialization validation passes (some service
matches), the registration request body consists of exactly the six form
fields plus the fixed role field "doctor". -/
theorem onSubmit_request_body_fields
    (services : List Service) (data : RegisterFormInputs)
    (fetched : FetchOutcome) (s : ComponentState) (svc : Service)
    (hfind : services.find? (fun x => x.name == data.specialization)
        = some svc) :
    (onSubmit services data fetched s).2 =
      some { name := data.name
             email := data.email
             password := data.password
             specialization := data.specialization
             phoneNumber := data.phoneNumber
             address := data.address
             role := "doctor" } := by
  unfold onSubmit
  rw [hfind]
  rcases fetched with msg | ⟨ok, body⟩
  · rfl
  · rcases body with ⟨message, bdata⟩
    cases ok with
    | false => rfl
    | true => cases bdata with
      | none => rfl
      | some d => rfl

/-- C3 witness: selecting the Cardiology service and submitting the demo
inputs yields a request body with specialization Cardiology and role
doctor. -/
theorem onSubmit_request_body_fields_witness :
    (onSubmit demoServices demoInputs (.exn "network down") initialState).2 =
      some { name := "Dr. John Doe"
             email := "doctor@example.com"
             password := "secret1"
             specialization := "Cardiology"
             phoneNumber := "+1 (555) 000-0000"
             address := "Clinic address"
             role := "doctor" } :=
  onSubmit_request_body_fields _ _ _ _ _ rfl

/-- C4: the service-change handler sets the specialization field and the
displayed details to the matching service's name, duration and price when
the selected value matches some service, and leaves the state unchanged
when no service matches. -/
theorem handleServiceChange_select (services : List Service) (value : String)
    (s : ComponentState) :
    (∀ svc, services.find? (fun x => x.name == value) = some svc →
      handleServiceChange services value s =
        { s with specialization := svc.name
                 selectedServiceDetails :=
                   some { duration := svc.duration, price := svc.price } }) ∧
    (services.find? (fun x => x.name == value) = none →
      handleServiceChange services value s = s) := by
  constructor
  · intro svc hfind
    unfold handleServiceChange
    rw [hfind]
  · intro hnone
    unfold handleServiceChange
    rw [hnone]

/-- C4 witness: selecting Cardiology sets the field and the 30-minute,
100-dollar details; selecting the unknown value Dermatology changes
nothing. -/
theorem handleServiceChange_select_witness :
    handleServiceChange demoServices "Cardiology" initialState =
      { initialState with
          specialization := "Cardiology"
          selectedServiceDetails := some { duration := 30, price := 100 } } ∧
    handleServiceChange demoServices "Dermatology" initialState
      = initialState :=
  ⟨(handleServiceChange_select demoServices "Cardiology" initialState).1 _ rfl,
   (handleServiceChange_select demoServices "Dermatology" initialState).2 rfl⟩

/-- C5 counterexample: a non-2xx response whose body has a message field
present but holding the empty string displays the generic fallback
"Registration failed", not the server-provided message, because line 88
uses the JS or-operator and the empty string is falsy. -/
theorem onSubmit_non_ok_empty_message_counterexample :
    ((onSubmit demoServices demoInputs
        (.response false { message := some "", data := none })
        initialState).1).error = some genericFailMsg ∧
    genericFailMsg ≠ "" := by
  exact ⟨rfl, by decide⟩

/-- C5 amended: on a non-2xx response, onSubmit displays the server message
when it is present and non-empty and the fallback "Registration failed"
otherwise (an absent or empty-string message both fall back), and it
performs no storage writes and no navigation. -/
theorem onSubmit_non_ok_response
    (services : List Service) (data : RegisterFormInputs)
    (s : ComponentState) (svc : Service) (body : RespBody)
    (hfind : services.find? (fun x => x.name == data.specialization)
        = some svc) :
    ((onSubmit services data (.response false body) s).1).error
        = some (jsOrOpt body.message genericFailMsg) ∧
    (∀ m, body.message = some m → m ≠ "" →
      ((onSubmit services data (.response false body) s).1).error = some m) ∧
    ((onSubmit services data (.response false body) s).1).storage
        = s.storage ∧
    ((onSubmit services data (.response false body) s).1).navigatedTo
        = s.navigatedTo := by
  rcases body with ⟨message, bdata⟩
  have herr : ((onSubmit services data
      (.response false ⟨message, bdata⟩) s).1).error
      = some (jsOrOpt message genericFailMsg) := by
    unfold onSubmit
    rw [hfind]
    rfl
  refine ⟨herr, ?_, ?_, ?_⟩
  · intro m hm hne
    have hm2 : message = some m := hm
    rw [herr, hm2]
    simp [jsOrOpt, jsOrStr, hne]
  · unfold onSubmit
    rw [hfind]
    rfl
  · unfold onSubmit
    rw [hfind]
    rfl

/-- C5 witness: a non-2xx response with body message "Email exists" ends
with displayed error "Email exists", unchanged storage and no navigation. -/
theorem onSubmit_non_ok_response_witness :
    ((onSubmit demoServices demoInputs
        (.response false { message := some "Email exists", data := none })
        initialState).1).error = some "Email exists" ∧
    ((onSubmit demoServices demoInputs
        (.response false { message := some "Email exists", data := none })
        initialState).1).storage = initialState.storage ∧
    ((onSubmit demoServices demoInputs
        (.response false { message := some "Email exists", data := none })
        initialState).1).navigatedTo = initialState.navigatedTo :=
  ⟨(onSubmit_non_ok_response demoServices demoInputs initialState _ _
      rfl).2.1 "Email exists" rfl (by decide),
   (onSubmit_non_ok_response demoServices demoInputs initialState _ _
      rfl).2.2.1,
   (onSubmit_non_ok_response demoServices demoInputs initialState _ _
      rfl).2.2.2⟩

/-- C6: a form state with a password shorter than 6 characters, or a
confirmPassword differing from password, or any required field empty, is
rejected by the field-level validation, so handleSubmit never invokes
onSubmit. -/
theorem validation_blocks_submit
    (services : List Service) (fetched : FetchOutcome) (s : ComponentState)
    (i : RegisterFormInputs)
    (h : i.password.length < 6 ∨ i.confirmPassword ≠ i.password ∨
         i.name = "" ∨ i.email = "" ∨ i.specialization = "" ∨
         i.phoneNumber = "" ∨ i.address = "" ∨ i.password = "" ∨
         i.confirmPassword = "") :
    validateInputs i = false ∧
    handleSubmitModel services i fetched s = none := by
  have hv : validateInputs i = false := by
    cases hval : validateInputs i with
    | false => rfl
    | true =>
      exfalso
      simp only [validateInputs, Bool.and_eq_true, bne_iff_ne, ne_eq,
        decide_eq_true_eq, beq_iff_eq] at hval
      obtain ⟨⟨⟨⟨⟨⟨hname, hemail, hmatch⟩, hspec⟩, hphone⟩, haddr⟩,
        hpw, hlen⟩, hcp, hcpeq⟩ := hval
      rcases h with h | h | h | h | h | h | h | h | h
      · omega
      · exact h hcpeq
      · exact hname h
      · exact hemail h
      · exact hspec h
      · exact hphone h
      · exact haddr h
      · exact hpw h
      · exact hcp h
  exact ⟨hv, by simp [handleSubmitModel, hv]⟩

/-- C6 witness: the demo inputs with the 3-character password abc (and
matching confirmPassword) fail validation and onSubmit is never invoked. -/
theorem validation_blocks_submit_witness :
    validateInputs
        { demoInputs with password := "abc", confirmPassword := "abc" }
      = false ∧
    handleSubmitModel demoServices
        { demoInputs with password := "abc", confirmPassword := "abc" }
        (.exn "") initialState = none :=
  validation_blocks_submit _ _ _ _ (Or.inl (by decide))

/-- C7: the submission state machine: starting a submit enters the
submitting state (isLoading true, the submit control disabled, which is by
definition exactly the isLoading flag), and every completed run of onSubmit
ends with isLoading false, either with no error and navigation to the
dashboard route (success, terminal) or with an error message set and
navigation unchanged (failure, back to idle). -/
theorem submission_state_machine
    (services : List Service) (data : RegisterFormInputs)
    (fetched : FetchOutcome) (s : ComponentState) :
    (startSubmit s).isLoading = true ∧
    submitDisabled (startSubmit s) = true ∧
    (∀ st : ComponentState, submitDisabled st = st.isLoading) ∧
    ((onSubmit services data fetched s).1).isLoading = false ∧
    ((((onSubmit services data fetched s).1).error = none ∧
      ((onSubmit services data fetched s).1).navigatedTo
        = some dashboardRoute) ∨
     (∃ m, ((onSubmit services data fetched s).1).error = some m ∧
       ((onSubmit services data fetched s).1).navigatedTo
        = s.navigatedTo)) := by
  refine ⟨rfl, rfl, fun st => rfl, ?_, ?_⟩
  · exact (onSubmit_paths services data fetched s).1
  · exact (onSubmit_paths services data fetched s).2

/-- C8: the selectedServiceDetails state is either its initial null or the
duration and price of some service in the fetched list; the invariant is
kept by the select handler, a non-null value is never reset to null, and
onSubmit leaves the details untouched on every path. -/
theorem selectedServiceDetails_invariant
    (services : List Service) (value : String)
    (data : RegisterFormInputs) (fetched : FetchOutcome) (s : ComponentState)
    (hinv : detailsInvariant services s.selectedServiceDetails) :
    detailsInvariant services
        ((handleServiceChange services value s).selectedServiceDetails) ∧
    (s.selectedServiceDetails ≠ none →
      (handleServiceChange services value s).selectedServiceDetails
        ≠ none) ∧
    ((onSubmit services data fetched s).1).selectedServiceDetails
        = s.selectedServiceDetails := by
  refine ⟨?_, ?_, ?_⟩
  · unfold handleServiceChange
    cases hfind : services.find? (fun svc => svc.name == value) with
    | none => exact hinv
    | some svc =>
      exact Or.inr ⟨svc, List.mem_of_find?_eq_some hfind, rfl⟩
  · intro hne
    unfold handleServiceChange
    cases hfind : services.find? (fun svc => svc.name == value) with
    | none => exact hne
    | some svc => simp
  · unfold onSubmit
    cases hfind :
        services.find? (fun svc => svc.name == data.specialization) with
    | none => rfl
    | some svc =>
      rcases fetched with msg | ⟨ok, body⟩
      · rfl
      · rcases body with ⟨message, bdata⟩
        cases ok with
        | false => rfl
        | true => cases bdata with
          | none => rfl
          | some d => rfl

/-- C8 witness: from the initial null state, selecting Cardiology yields
details belonging to the fetched list, and a failing submission leaves the
details at their prior value. -/
theorem selectedServiceDetails_invariant_witness :
    detailsInvariant demoServices
        ((handleServiceChange demoServices "Cardiology"
            initialState).selectedServiceDetails) ∧
    ((onSubmit demoServices demoInputs (.exn "boom")
        initialState).1).selectedServiceDetails
      = initialState.selectedServiceDetails :=
  ⟨(selectedServiceDetails_invariant demoServices "Cardiology" demoInputs
      (.exn "boom") initialState (Or.inl rfl)).1,
   (selectedServiceDetails_invariant demoServices "Cardiology" demoInputs
      (.exn "boom") initialState (Or.inl rfl)).2.2⟩

/-- C9: on a successful response, the user summary persisted under the
storage key 'user' has role equal to the literal "doctor" whatever role the
response's user object carries, and its id, name, email and specialization
are copied from the response. -/
theorem stored_user_role_doctor
    (services : List Service) (data : RegisterFormInputs) (s : ComponentState)
    (svc : Service) (message : Option String) (d : RespData)
    (hfind : services.find? (fun x => x.name == data.specialization)
        = some svc) :
    ((onSubmit services data
        (.response true { message := message, data := some d }) s).1).storage.user
      = some { id := d.user.id
               name := d.user.name
               email := d.user.email
               role := "doctor"
               specialization := d.user.specialization } := by
  unfold onSubmit
  rw [hfind]
  rfl

/-- C9 witness: a successful response whose user object carries the role
patient still ends with the stored role "doctor" and the other fields
copied. -/
theorem stored_user_role_doctor_witness :
    ((onSubmit demoServices demoInputs
        (.response true
          { message := none
            data := some { token := "tok123"
                           user := { id := "u1"
                                     name := "Dr. John Doe"
                                     email := "doctor@example.com"
                                     specialization := "Cardiology"
                                     role := some "patient" } } })
        initialState).1).storage.user
      = some { id := "u1"
               name := "Dr. John Doe"
               email := "doctor@example.com"
               role := "doctor"
               specialization := "Cardiology" } :=
  stored_user_role_doctor _ _ _ _ _ _ rfl

/-- C10: onSubmit is total towards its caller: on every input and every
fetch outcome it terminates with isLoading false, and every non-success
path ends with the displayed error string set (the success path ends with
navigation to the dashboard and no error). -/
theorem onSubmit_total_loading_cleared
    (services : List Service) (data : RegisterFormInputs)
    (fetched : FetchOutcome) (s : ComponentState) :
    ((onSubmit services data fetched s).1).isLoading = false ∧
    (((onSubmit services data fetched s).1).navigatedTo
          = some dashboardRoute ∧
        ((onSubmit services data fetched s).1).error = none ∨
      ∃ m, ((onSubmit services data fetched s).1).error = some m) := by
  refine ⟨(onSubmit_paths services data fetched s).1, ?_⟩
  rcases (onSubmit_paths services data fetched s).2 with ⟨he, hn⟩ | ⟨m, hm, h2⟩
  · exact Or.inl ⟨hn, he⟩
  · exact Or.inr ⟨m, hm⟩
